import Mathlib

/-!
Verification of the ferrischat.py object-model fragment.

The development shallowly embeds the two source files of the repository:

* `ferris/utils.py` — snowflake timestamp codec (`dt_to_snowflake`,
  `get_snowflake_creation_date`), JSON helpers (`to_json`/`from_json`),
  linear search (`find`), id normalisation (`sanitize_id`) and error
  formatting (`to_error_string`);
* `ferris/base.py` — the identity hierarchy `SnowflakeObject`,
  `BaseObject` (id-based `__eq__`/`__hash__`) and `Object`.

Python integers are arbitrary precision, so they are embedded as `Int`;
Python `>>` on `int` is floor shift, embedded as euclidean division by a
positive power of two (which coincides with floor division), and
low-64-bit extraction is `x % 2 ^ 64` with the euclidean (non-negative)
remainder, exactly as in Python.  Timestamps are measured in integer
milliseconds since the Unix epoch.  The snowflake encoder runs through
IEEE-754 binary64 arithmetic (`dt.timestamp() * 1000 - FERRIS_EPOCH_MS`
is a chain of correctly rounded double operations before the `int(...)`
truncation), and that rounding is observable at millisecond granularity,
so the encoder is embedded exactly: every double is an exact dyadic
rational represented by an integer fraction, and each operation performs
the exact arithmetic followed by round-to-nearest, ties-to-even at 53
significant bits (the binary64 normal range; no subnormal or overflow
handling is needed at the magnitudes of representable datetimes).
-/

set_option maxRecDepth 4096

/-- Source constant `FERRIS_EPOCH_MS` of `ferris/utils.py` line 52:
milliseconds from the Unix epoch to 2020-01-01T00:00:00Z. -/
def FERRIS_EPOCH_MS : Int := 1577836800000

/-- Floor of the base-2 logarithm of a natural number, by fueled halving
(any fuel at least the bit length is enough; 128 covers every quantity
in this development). -/
def natLog2F : Nat → Nat → Nat
  | 0, _ => 0
  | fuel + 1, n => if n < 2 then 0 else natLog2F fuel (n / 2) + 1

/-- Floor of the base-2 logarithm of a natural number. -/
def natLog2 (n : Nat) : Nat := natLog2F 128 n

/-- Round the exact rational n / d (with d positive) to the nearest
integer, ties to even — the rounding used both by IEEE-754 binary64
operations at mantissa granularity and by Python `round`. -/
def roundHalfEvenDiv (n d : Int) : Int :=
  let q := n / d
  let r := n % d
  if 2 * r < d then q
  else if d < 2 * r then q + 1
  else if q % 2 = 0 then q else q + 1

/-- Floor of the base-2 logarithm of the positive rational n / d. -/
def fracLog2 (n d : Int) : Int :=
  let c : Int := (natLog2 n.toNat : Int) - (natLog2 d.toNat : Int)
  if 0 ≤ c then (if 2 ^ c.toNat * d ≤ n then c else c - 1)
  else (if d ≤ n * 2 ^ (-c).toNat then c else c - 1)

/-- The IEEE-754 binary64 value nearest to the exact rational n / d
(with d positive), as an exact fraction whose denominator is a power of
two: round to 53 significant bits, ties to even.  Valid on the binary64
normal range, which covers every quantity in this development. -/
def floatRoundFrac (n d : Int) : Int × Int :=
  if n = 0 then (0, 1)
  else
    let s : Int := if n < 0 then -1 else 1
    let a := s * n
    let e : Int := fracLog2 a d - 52
    if 0 ≤ e then (s * roundHalfEvenDiv a (d * 2 ^ e.toNat) * 2 ^ e.toNat, 1)
    else (s * roundHalfEvenDiv (a * 2 ^ (-e).toNat) d, 2 ^ (-e).toNat)

/-- Embedding of `dt_to_snowflake` (`ferris/utils.py` lines 113-127),
float pipeline included.  The argument is the POSIX timestamp of the
input datetime, in integer milliseconds.  Source: `timestamp =
dt.timestamp() * 1000 - FERRIS_EPOCH_MS; return int(timestamp) << 64`,
where for an instant of t integer milliseconds `dt.timestamp()` is the
binary64 value nearest to t / 1000 (CPython computes it as one correctly
rounded float division of the total microseconds by 10^6), `* 1000` and
`- FERRIS_EPOCH_MS` are binary64 operations (the epoch constant is below
2^53, hence exact), `int(...)` truncates toward zero, and the left shift
of a Python `int` is exact multiplication by `2 ^ 64`. -/
def dt_to_snowflake (tMs : Int) : Int :=
  let ts := floatRoundFrac tMs 1000
  let prod := floatRoundFrac (ts.1 * 1000) ts.2
  let diff := floatRoundFrac (prod.1 - FERRIS_EPOCH_MS * prod.2) prod.2
  Int.tdiv diff.1 diff.2 * 2 ^ 64

/-- Embedding of `get_snowflake_creation_date` (`ferris/utils.py` lines
96-110) at millisecond granularity: the timestamp component plus the
epoch, in milliseconds since the Unix epoch.  Source: `seconds =
((snowflake >> 64) + FERRIS_EPOCH_MS) / 1000; return
datetime.utcfromtimestamp(seconds)` — Python's `>> 64` on `int` is
floor division by `2 ^ 64`, i.e. euclidean division by the positive
constant `2 ^ 64`, and the produced datetime is the instant `x / 1000`
seconds = `x` milliseconds after the Unix epoch up to the float division
and microsecond rounding, which `get_snowflake_creation_date_float_us`
below models exactly. -/
def get_snowflake_creation_date (snowflake : Int) : Int :=
  snowflake / 2 ^ 64 + FERRIS_EPOCH_MS

/-- Embedding of `get_snowflake_creation_date` with the float pipeline
included, returning the produced datetime in microseconds since the Unix
epoch: `((snowflake >> 64) + FERRIS_EPOCH_MS) / 1000` is one correctly
rounded binary64 division, and `utcfromtimestamp` splits the double into
integer and fractional parts (`math.modf`, exact, toward zero),
multiplies the fraction by 10^6 in binary64 and applies Python `round`
(ties to even) to obtain the microseconds. -/
def get_snowflake_creation_date_float_us (snowflake : Int) : Int :=
  let sec := floatRoundFrac (snowflake / 2 ^ 64 + FERRIS_EPOCH_MS) 1000
  let ti := Int.tdiv sec.1 sec.2
  let fl6 := floatRoundFrac ((sec.1 - ti * sec.2) * 1000000) sec.2
  ti * 1000000 + roundHalfEvenDiv fl6.1 fl6.2

/-- Days from 1970-01-01 to the Gregorian civil date y-m-d, the standard
proleptic-Gregorian calendar arithmetic underlying POSIX timestamps and
Python `datetime`. -/
def daysFromCivil (y m d : Int) : Int :=
  let y2 := if m ≤ 2 then y - 1 else y
  let era := y2 / 400
  let yoe := y2 - era * 400
  let mp := if 2 < m then m - 3 else m + 9
  let doy := (153 * mp + 2) / 5 + d - 1
  let doe := yoe * 365 + yoe / 4 - yoe / 100 + doy
  era * 146097 + doe - 719468

/-- Milliseconds since the Unix epoch of the civil instant
y-m-d hh:mm:ss.ms (UTC). -/
def civilToUnixMs (y m d hh mm ss ms : Int) : Int :=
  ((daysFromCivil y m d * 24 + hh) * 3600 + mm * 60 + ss) * 1000 + ms

/-- Shared evaluation: the float pipeline maps both 2169510559580 ms and
2169510559581 ms to the timestamp component 591673759580. -/
theorem float_encode_collapse :
    dt_to_snowflake 2169510559580 = 591673759580 * 2 ^ 64 ∧
      dt_to_snowflake 2169510559581 = 591673759580 * 2 ^ 64 := by
  constructor <;> decide

/-- C1: the claimed round trip decode(encode(t)) = t fails on the code:
at the millisecond-representable instant t = 2169510559581 ms
(2038-10-01 01:49:19.581 UTC) the binary64 rounding of
`dt.timestamp() * 1000` lands just below the integer and the `int(...)`
truncation drops one millisecond, so the encoder produces timestamp
component 591673759580 = t - FERRIS_EPOCH_MS - 1 and the snowflake
decodes to 2169510559580 ms = t - 1 (exactly 2169510559580000 us through
the full `utcfromtimestamp` pipeline), contradicting the claim and the
encoder's own docstring; the low 64 bits are still zero. -/
theorem snowflake_roundtrip_float_bug :
    dt_to_snowflake 2169510559581 = 591673759580 * 2 ^ 64 ∧
      591673759580 = 2169510559581 - FERRIS_EPOCH_MS - 1 ∧
      get_snowflake_creation_date (dt_to_snowflake 2169510559581) =
        2169510559580 ∧
      get_snowflake_creation_date_float_us (dt_to_snowflake 2169510559581) =
        2169510559580000 ∧
      dt_to_snowflake 2169510559581 % 2 ^ 64 = 0 ∧
      (2169510559580 : Int) ≠ 2169510559581 := by
  refine ⟨float_encode_collapse.2, by decide, ?_, ?_, ?_, by decide⟩ <;> decide

/-- C3: decoding the zero snowflake yields exactly the instant
2020-01-01T00:00:00Z, and the epoch constant is 1577836800000 ms. -/
theorem snowflake_zero_is_epoch :
    get_snowflake_creation_date 0 = civilToUnixMs 2020 1 1 0 0 0 0 ∧
      FERRIS_EPOCH_MS = 1577836800000 := by
  constructor
  · decide
  · rfl

/-- C9 counterexample: encoding is not strictly monotone at millisecond
granularity: the consecutive milliseconds 2169510559580 and
2169510559581 encode to the same snowflake, so the snowflake of the
later instant is not numerically greater. -/
theorem snowflake_sortable_counterexample :
    (2169510559580 : Int) < 2169510559581 ∧
      dt_to_snowflake 2169510559580 = dt_to_snowflake 2169510559581 ∧
      dt_to_snowflake 2169510559580 = 591673759580 * 2 ^ 64 := by
  exact ⟨by decide, float_encode_collapse.1.trans float_encode_collapse.2.symm,
    float_encode_collapse.1⟩

/-- C9 amended: snowflakes whose high-64-bit timestamp components differ
sort by creation time regardless of their low 64 bits — a snowflake with
the earlier decoded creation date is numerically smaller; the encoder
`dt_to_snowflake`, however, is not strictly monotone at millisecond
granularity: the float truncation can encode consecutive milliseconds to
the same snowflake. -/
theorem snowflake_sortable (s1 s2 : Int)
    (h : get_snowflake_creation_date s1 < get_snowflake_creation_date s2) :
    s1 < s2 ∧
      dt_to_snowflake 2169510559580 = dt_to_snowflake 2169510559581 := by
  refine ⟨?_, float_encode_collapse.1.trans float_encode_collapse.2.symm⟩
  have hpow : (2 : Int) ^ 64 = 18446744073709551616 := by norm_num
  simp only [get_snowflake_creation_date, FERRIS_EPOCH_MS, hpow] at h
  omega

/-- Witness for C9 amended at s1 = 0 and s2 = 2^64 (components 0 and 1). -/
theorem snowflake_sortable_witness :
    (0 : Int) < 2 ^ 64 ∧
      dt_to_snowflake 2169510559580 = dt_to_snowflake 2169510559581 :=
  snowflake_sortable 0 (2 ^ 64) (by decide)

/-!
Identity hierarchy of `ferris/base.py`.

`BaseObject.__eq__` (lines 61-62) is `isinstance(other, self.__class__)
and other.id == self.id`; `isinstance` accepts instances of the class
itself and of any of its subclasses, so the model carries an explicit
universe of concrete `BaseObject` subclasses together with its subclass
relation.  The universe below is the minimal one exhibiting every
relevant configuration: two unrelated concrete subclasses and a concrete
subclass of the first.  An instance is a pair of its runtime class and
its `id` slot; the slot starts as Python `None` (`SnowflakeObject.__init__`
line 25) and `_store_snowflake` fills it, so the slot is an `Option Int`.
-/

/-- Model universe of concrete `BaseObject` subclasses: `entityA` and
`entityB` are unrelated, `entityASub` derives from `entityA`. -/
inductive PyClass where
  | entityA
  | entityB
  | entityASub
deriving DecidableEq

/-- Python subclass test: `isSubclass c p` holds when `c` is `p` itself
or derives from `p`, exactly what `isinstance(x, p)` checks of the
runtime class `c` of `x`. -/
def isSubclass (c p : PyClass) : Bool :=
  c == p || (c == PyClass.entityASub && p == PyClass.entityA)

/-- An instance of a concrete `BaseObject` subclass: its runtime class
and the private `__id` slot (Python `None` before `_store_snowflake`). -/
structure BaseObj where
  cls : PyClass
  id : Option Int
deriving DecidableEq

/-- Python `==` on the contents of the `id` slot: `None == None` is
`True`, `None` compared with an `int` is `False`, two `int`s compare by
value. -/
def pyIdEq : Option Int → Option Int → Bool
  | none, none => true
  | some a, some b => a == b
  | _, _ => false

/-- Embedding of `BaseObject.__eq__` (`ferris/base.py` lines 61-62):
`isinstance(other, self.__class__) and other.id == self.id`. -/
def pyEq (self other : BaseObj) : Bool :=
  isSubclass other.cls self.cls && pyIdEq other.id self.id

/-- Embedding of `BaseObject.__ne__` (`ferris/base.py` lines 64-65):
`not self.__eq__(other)`. -/
def pyNe (self other : BaseObj) : Bool :=
  ! pyEq self other

/-- CPython hash of an `int`: reduction modulo 2^61 - 1 keeping the
sign, with -1 adjusted to -2. -/
def pyHashInt (n : Int) : Int :=
  let r := if 0 ≤ n then n % (2 ^ 61 - 1) else -((-n) % (2 ^ 61 - 1))
  if r = -1 then -2 else r

/-- CPython hash of the value held in the `id` slot.  The hash of `None`
is a fixed per-interpreter constant, modelled as 0; all the development
uses of it need only that it is a constant. -/
def pyHashOfId : Option Int → Int
  | none => 0
  | some n => pyHashInt n

/-- Embedding of `BaseObject.__hash__` (`ferris/base.py` lines 50-51):
`hash(self.id)`. -/
def objHash (self : BaseObj) : Int :=
  pyHashOfId self.id

/-- C6: the hash of a `BaseObject` is the hash of its id, and for two
instances of the same concrete class, equality under `==` implies equal
hashes. -/
theorem baseobj_hash_consistent (a b : BaseObj)
    (_hcls : a.cls = b.cls) (heq : pyEq a b = true) :
    objHash a = objHash b ∧ objHash a = pyHashOfId a.id := by
  refine ⟨?_, rfl⟩
  have hid : pyIdEq b.id a.id = true := by
    have := heq
    simp only [pyEq, Bool.and_eq_true] at this
    exact this.2
  have : b.id = a.id := by
    cases h1 : a.id <;> cases h2 : b.id <;>
      simp [pyIdEq, h1, h2] at hid ⊢
    exact hid
  simp [objHash, this]

/-- Witness for C6: two `entityA` instances with id 5. -/
theorem baseobj_hash_consistent_witness :
    objHash ⟨PyClass.entityA, some 5⟩ = objHash ⟨PyClass.entityA, some 5⟩ ∧
      objHash ⟨PyClass.entityA, some 5⟩ = pyHashOfId (some 5) :=
  baseobj_hash_consistent ⟨PyClass.entityA, some 5⟩ ⟨PyClass.entityA, some 5⟩
    rfl (by decide)

/-!
`Object` (`ferris/base.py` lines 68-82) extends `SnowflakeObject`
directly, not `BaseObject`, so it inherits neither the id-based
`__eq__` nor the id-based `__hash__`: CPython falls back to the default
`object.__eq__` (identity) and `object.__hash__` (derived from the
object address).  The model gives each instance its address; the default
hash is the address rotated right by four bits, as in CPython's
pointer hash on 64-bit builds.
-/

/-- An `Object` instance: its memory address (object identity) and the
id stored by `__init__` via `_store_snowflake`. -/
structure ObjInst where
  addr : Nat
  id : Int
deriving DecidableEq

/-- Default `object.__eq__`: identity comparison of the two operands. -/
def objectDefaultEq (a b : ObjInst) : Bool :=
  a.addr == b.addr

/-- Default `object.__hash__` on a 64-bit build: the address rotated
right by four bits. -/
def objectDefaultHash (a : ObjInst) : Nat :=
  a.addr / 16 + a.addr % 16 * 2 ^ 60

/-- C10: two distinct `Object` instances (different addresses) with the
same id are not equal under `==`, and the hash is an object-identity
hash, not a hash of the id: instances with equal ids can have different
hashes. -/
theorem object_identity_semantics (a b : ObjInst)
    (haddr : a.addr ≠ b.addr) (_hid : a.id = b.id) :
    objectDefaultEq a b = false ∧
      ∃ c d : ObjInst, c.id = d.id ∧ objectDefaultHash c ≠ objectDefaultHash d := by
  refine ⟨?_, ⟨16, 5⟩, ⟨32, 5⟩, rfl, by decide⟩
  simp [objectDefaultEq, haddr]

/-- Witness for C10: addresses 16 and 32, both with id 5. -/
theorem object_identity_semantics_witness :
    objectDefaultEq ⟨16, 5⟩ ⟨32, 5⟩ = false ∧
      ∃ c d : ObjInst, c.id = d.id ∧ objectDefaultHash c ≠ objectDefaultHash d :=
  object_identity_semantics ⟨16, 5⟩ ⟨32, 5⟩ (by decide) rfl

/-!
Utility functions of `ferris/utils.py`.

`find` iterates the given iterable and returns the first element whose
predicate application is truthy, otherwise `None`; the model applies
truthiness to the predicate result, taking the predicate as a boolean
function, and represents the consumed portion of the (possibly lazily
produced) sequence as a list.  Laziness is captured by the statement
that the result on `front ++ x :: rest` neither inspects nor depends on
`rest` once `x` matches.
-/

/-- Embedding of `find` (`ferris/utils.py` lines 130-150): `for element
in iterable: if predicate(element): return element` then `return
None`. -/
def find {α : Type} (predicate : α → Bool) : List α → Option α
  | [] => none
  | element :: rest =>
    if predicate element then some element else find predicate rest

/-- C5: `find` returns the none sentinel when no element of the
exhausted sequence satisfies the predicate, and returns the first
matching element while consuming the sequence no further: the result on
`front ++ x :: rest` is `x` whatever `rest` holds, whenever `x` matches
and nothing in `front` does. -/
theorem find_first_match {α : Type} (predicate : α → Bool) :
    (∀ l : List α, (∀ x ∈ l, predicate x = false) → find predicate l = none) ∧
      (∀ (front : List α) (x : α), predicate x = true →
        (∀ y ∈ front, predicate y = false) →
        ∀ rest : List α, find predicate (front ++ x :: rest) = some x) := by
  constructor
  · intro l hall
    induction l with
    | nil => rfl
    | cons a l ih =>
      have ha : predicate a = false := hall a (List.mem_cons_self a l)
      have hl : ∀ x ∈ l, predicate x = false := fun x hx =>
        hall x (List.mem_cons_of_mem a hx)
      simp [find, ha, ih hl]
  · intro front x hx hfront rest
    induction front with
    | nil => simp [find, hx]
    | cons a front ih =>
      have ha : predicate a = false := hfront a (List.mem_cons_self a front)
      have hf : ∀ y ∈ front, predicate y = false := fun y hy =>
        hfront y (List.mem_cons_of_mem a hy)
      simp [find, ha, ih hf]

/-- Witness for C5, the spec examples: the first element above 2 in
[1, 2, 3, 4] is 3, and no element of [1, 2, 3] is above 10. -/
theorem find_first_match_witness :
    find (fun n : Int => decide (2 < n)) ([1, 2] ++ 3 :: [4]) = some 3 ∧
      find (fun n : Int => decide (10 < n)) [1, 2, 3] = none :=
  ⟨(find_first_match (fun n : Int => decide (2 < n))).2 [1, 2] 3
      (by decide) (by decide) [4],
    (find_first_match (fun n : Int => decide (10 < n))).1 [1, 2, 3] (by decide)⟩

/-!
`sanitize_id` works on any Python value: the model universe has `None`,
the integers, and objects that may or may not expose an `id` attribute
(whose value is again a Python value).  Truthiness is `False` for
`None` and zero, `True` for non-zero integers and for plain objects.
-/

/-- Model universe of Python values passed to `sanitize_id`: `None`, an
`int`, or an object carrying an optional `id` attribute (`none` when the
attribute is absent); the `tag` distinguishes otherwise identical
objects. -/
inductive PyVal where
  | vnone
  | vint (n : Int)
  | vobj (idAttr : Option PyVal) (tag : Nat)

/-- Python truthiness on the model universe: `None` and `0` are falsy,
every other value is truthy (plain objects define no `__bool__`). -/
def pyTruthy : PyVal → Bool
  | PyVal.vnone => false
  | PyVal.vint n => n != 0
  | PyVal.vobj _ _ => true

/-- Python `getattr(v, ..., dflt)` for the `id` attribute: the
attribute's value when the object exposes one, the default otherwise. -/
def getattrId (v : PyVal) (dflt : PyVal) : PyVal :=
  match v with
  | PyVal.vobj (some a) _ => a
  | _ => dflt

/-- Embedding of `sanitize_id` (`ferris/utils.py` lines 80-93):
`getattr(id, 'id', id) if id else None`. -/
def sanitize_id (v : PyVal) : PyVal :=
  if pyTruthy v then getattrId v v else PyVal.vnone

/-- C7: `sanitize_id` returns `None` on falsy input (`None` and zero),
the `id` attribute when the (truthy) value exposes one, and the value
itself unchanged otherwise (non-zero integers and objects without an
`id` attribute). -/
theorem sanitize_id_spec :
    sanitize_id PyVal.vnone = PyVal.vnone ∧
      sanitize_id (PyVal.vint 0) = PyVal.vnone ∧
      (∀ n : Int, n ≠ 0 → sanitize_id (PyVal.vint n) = PyVal.vint n) ∧
      (∀ (a : PyVal) (t : Nat), sanitize_id (PyVal.vobj (some a) t) = a) ∧
      (∀ t : Nat, sanitize_id (PyVal.vobj none t) = PyVal.vobj none t) := by
  refine ⟨rfl, rfl, ?_, ?_, ?_⟩
  · intro n hn
    simp [sanitize_id, pyTruthy, getattrId, hn]
  · intro a t
    rfl
  · intro t
    rfl

/-- Witness for C7, the spec examples: `sanitize_id(42)` is 42 and an
object whose `id` attribute is 7 sanitises to 7. -/
theorem sanitize_id_spec_witness :
    sanitize_id (PyVal.vint 42) = PyVal.vint 42 ∧
      sanitize_id (PyVal.vobj (some (PyVal.vint 7)) 0) = PyVal.vint 7 :=
  ⟨sanitize_id_spec.2.2.1 42 (by decide),
    sanitize_id_spec.2.2.2.1 (PyVal.vint 7) 0⟩

/-!
`to_error_string` formats an exception from its class name and its
`str(...)` rendering; the model carries both as strings.
-/

/-- Characters stripped by Python `str.strip()` with no argument
(ASCII whitespace; the model covers the ASCII subset of Python's
unicode whitespace). -/
def isPySpace (c : Char) : Bool :=
  c = ' ' || c = '\t' || c = '\n' || c = '\r' ||
    c = Char.ofNat 11 || c = Char.ofNat 12

/-- Python `str.strip()`: drop whitespace from both ends. -/
def pyStrip (s : String) : String :=
  String.mk (((s.data.dropWhile isPySpace).reverse.dropWhile isPySpace).reverse)

/-- An exception value as `to_error_string` sees it: the name of its
class and its `str(...)` rendering (the message). -/
structure PyError where
  typeName : String
  msg : String
deriving DecidableEq

/-- Embedding of `to_error_string` (`ferris/utils.py` lines 179-188):
the format string produces `self.__class__.__name__`, a colon-space, and
`str(exc)` when `str(exc).strip()` is truthy (non-empty), else only the
class name. -/
def to_error_string (exc : PyError) : String :=
  if pyStrip exc.msg = "" then exc.typeName
  else exc.typeName ++ ": " ++ exc.msg

/-- C8: `to_error_string` yields type name, colon and message when the
message is non-blank after stripping whitespace, and the bare type name
otherwise; it is a total function on error values (never raises). -/
theorem to_error_string_spec (exc : PyError) :
    (pyStrip exc.msg ≠ "" → to_error_string exc = exc.typeName ++ ": " ++ exc.msg) ∧
      (pyStrip exc.msg = "" → to_error_string exc = exc.typeName) := by
  constructor
  · intro h
    simp [to_error_string, h]
  · intro h
    simp [to_error_string, h]

/-- Witness for C8, the spec examples: `ValueError("bad")` formats with
the message, a blank-message `ValueError` formats as the bare name. -/
theorem to_error_string_spec_witness :
    to_error_string ⟨"ValueError", "bad"⟩ = "ValueError: bad" ∧
      to_error_string ⟨"ValueError", ""⟩ = "ValueError" :=
  ⟨(to_error_string_spec ⟨"ValueError", "bad"⟩).1 (by decide),
    (to_error_string_spec ⟨"ValueError", ""⟩).2 (by decide)⟩

/-!
JSON decoding of `ferris/utils.py`.

`from_json` (lines 74-77, the `HAS_ORJSON = False` branch that is
active in the source) returns `None` on a falsy (empty) input string and
otherwise delegates to `json.loads`.  The standard-library parser is
embedded below for the standard JSON grammar as Python accepts it:
whitespace is space, tab, newline and carriage return; the literals are
`null`, `true`, `false` and the non-standard `NaN`, `Infinity`,
`-Infinity` Python accepts by default; numbers follow the grammar
`-?(0|[1-9][0-9]*)(.[0-9]+)?([eE][+-]?[0-9]+)?`, decoded to an integer
when neither fraction nor exponent is present and otherwise kept as
their float lexeme (float arithmetic is outside the model); strings
support the standard escapes and four-hex-digit unicode escapes, and
reject unescaped control characters; trailing non-whitespace input is an
error (Extra data).  Two modelling notes: object members are kept as the
parsed key/value list (Python folds them into a dict, last key wins),
and lone surrogate escapes decode to U+FFFD (Python keeps lone
surrogates, which Lean strings cannot represent).  Parsing failure is
the `Except.error` constructor, Python's raised `JSONDecodeError`.
-/

/-- A decoded JSON value as `json.loads` produces it: `Json.null` is
Python `None`, `Json.num` a Python `int`, `Json.fnum` the lexeme of a
Python `float`. -/
inductive Json where
  | null
  | bool (b : Bool)
  | num (n : Int)
  | fnum (lit : String)
  | str (s : String)
  | arr (elems : List Json)
  | obj (members : List (String × Json))

/-- JSON whitespace skipped by Python `json.loads`. -/
def jsonWs (c : Char) : Bool :=
  c = ' ' || c = '\t' || c = '\n' || c = '\r'

/-- Drop leading JSON whitespace. -/
def skipWs (cs : List Char) : List Char :=
  cs.dropWhile jsonWs

/-- Decimal digit test. -/
def isDigit (c : Char) : Bool :=
  '0' ≤ c && c ≤ '9'

/-- Hexadecimal digit test. -/
def isHexDigit (c : Char) : Bool :=
  isDigit c || ('a' ≤ c && c ≤ 'f') || ('A' ≤ c && c ≤ 'F')

/-- Value of a hexadecimal digit. -/
def hexVal (c : Char) : Nat :=
  if isDigit c then c.toNat - 48
  else if 'a' ≤ c && c ≤ 'f' then c.toNat - 87
  else c.toNat - 55

/-- Value of a list of decimal digits. -/
def digitsToNat (ds : List Char) : Nat :=
  ds.foldl (fun acc c => acc * 10 + (c.toNat - 48)) 0

/-- Opening brace character of the object syntax. -/
def lbrace : Char := Char.ofNat 123

/-- Closing brace character of the object syntax. -/
def rbrace : Char := Char.ofNat 125

/-- Parse the body of a JSON string after the opening quote, with the
accumulated characters in reverse; returns the decoded string and the
input after the closing quote.  The fuel bounds the number of parsing
steps, each of which consumes at least one input character, so any fuel
above the input length is enough. -/
def parseJString : Nat → List Char → List Char → Except String (String × List Char)
  | 0, _, _ => Except.error "Unterminated string"
  | fuel + 1, cs, acc =>
    match cs with
    | [] => Except.error "Unterminated string"
    | '"' :: rest => Except.ok (String.mk acc.reverse, rest)
    | '\\' :: 'u' :: h1 :: h2 :: h3 :: h4 :: rest =>
      if isHexDigit h1 && isHexDigit h2 && isHexDigit h3 && isHexDigit h4 then
        let n := ((hexVal h1 * 16 + hexVal h2) * 16 + hexVal h3) * 16 + hexVal h4
        if 55296 ≤ n && n ≤ 56319 then
          match rest with
          | '\\' :: 'u' :: g1 :: g2 :: g3 :: g4 :: rest2 =>
            if isHexDigit g1 && isHexDigit g2 && isHexDigit g3 && isHexDigit g4 then
              let m := ((hexVal g1 * 16 + hexVal g2) * 16 + hexVal g3) * 16 + hexVal g4
              if 56320 ≤ m && m ≤ 57343 then
                parseJString fuel rest2
                  (Char.ofNat (65536 + (n - 55296) * 1024 + (m - 56320)) :: acc)
              else parseJString fuel rest (Char.ofNat 65533 :: acc)
            else parseJString fuel rest (Char.ofNat 65533 :: acc)
          | _ => parseJString fuel rest (Char.ofNat 65533 :: acc)
        else if 56320 ≤ n && n ≤ 57343 then
          parseJString fuel rest (Char.ofNat 65533 :: acc)
        else
          parseJString fuel rest (Char.ofNat n :: acc)
      else Except.error "Invalid unicode escape"
    | '\\' :: 'u' :: _ => Except.error "Invalid unicode escape"
    | ['\\'] => Except.error "Unterminated string"
    | '\\' :: c :: rest =>
      if c = '"' then parseJString fuel rest ('"' :: acc)
      else if c = '\\' then parseJString fuel rest ('\\' :: acc)
      else if c = '/' then parseJString fuel rest ('/' :: acc)
      else if c = 'b' then parseJString fuel rest (Char.ofNat 8 :: acc)
      else if c = 'f' then parseJString fuel rest (Char.ofNat 12 :: acc)
      else if c = 'n' then parseJString fuel rest ('\n' :: acc)
      else if c = 'r' then parseJString fuel rest ('\r' :: acc)
      else if c = 't' then parseJString fuel rest ('\t' :: acc)
      else Except.error "Invalid escape"
    | c :: rest =>
      if c.toNat < 32 then Except.error "Invalid control character"
      else parseJString fuel rest (c :: acc)
termination_by structural fuel _ _ => fuel

/-- Parse the optional fraction and exponent of a number whose optional
sign and integer digits have been consumed, and build the value: an
integer when neither is present, otherwise the float lexeme. -/
def numberTail (neg : Bool) (intDigits : List Char) (cs : List Char) :
    Json × List Char :=
  let fracSplit : List Char × List Char :=
    match cs with
    | '.' :: r =>
      let ds := r.takeWhile isDigit
      if ds.isEmpty then ([], cs) else ('.' :: ds, r.dropWhile isDigit)
    | _ => ([], cs)
  let fracChars := fracSplit.1
  let cs2 := fracSplit.2
  let expSplit : List Char × List Char :=
    match cs2 with
    | e :: r =>
      if e = 'e' || e = 'E' then
        match r with
        | s :: r2 =>
          if s = '+' || s = '-' then
            let ds := r2.takeWhile isDigit
            if ds.isEmpty then ([], cs2)
            else (e :: s :: ds, r2.dropWhile isDigit)
          else
            let ds := r.takeWhile isDigit
            if ds.isEmpty then ([], cs2) else (e :: ds, r.dropWhile isDigit)
        | [] => ([], cs2)
      else ([], cs2)
    | [] => ([], cs2)
  let expChars := expSplit.1
  let cs3 := expSplit.2
  if fracChars.isEmpty && expChars.isEmpty then
    let v : Int := Int.ofNat (digitsToNat intDigits)
    (Json.num (if neg then -v else v), cs3)
  else
    (Json.fnum (String.mk ((if neg then ['-'] else []) ++
      intDigits ++ fracChars ++ expChars)), cs3)

/-- Parse a JSON number at the current position, following Python's
number regex: an optional minus sign, then either a single zero or a
nonzero digit followed by digits, then the optional fraction and
exponent handled by `numberTail`.  Anything else is the scanner's
Expecting value failure. -/
def parseNumber (cs : List Char) : Except String (Json × List Char) :=
  let neg : Bool := match cs with | '-' :: _ => true | _ => false
  let cs1 := if neg then cs.tail else cs
  match cs1 with
  | c :: rest =>
    if c = '0' then Except.ok (numberTail neg ['0'] rest)
    else if isDigit c then
      Except.ok (numberTail neg (c :: rest.takeWhile isDigit)
        (rest.dropWhile isDigit))
    else Except.error "Expecting value"
  | [] => Except.error "Expecting value"

mutual

/-- Parse one JSON value at the current position (no leading
whitespace), with `fuel` bounding the recursion depth; mirrors Python's
`scan_once`. -/
def parseValue : Nat → List Char → Except String (Json × List Char)
  | 0, _ => Except.error "Recursion limit exceeded"
  | _ + 1, [] => Except.error "Expecting value"
  | _ + 1, 'n' :: 'u' :: 'l' :: 'l' :: rest => Except.ok (Json.null, rest)
  | _ + 1, 't' :: 'r' :: 'u' :: 'e' :: rest => Except.ok (Json.bool true, rest)
  | _ + 1, 'f' :: 'a' :: 'l' :: 's' :: 'e' :: rest =>
    Except.ok (Json.bool false, rest)
  | _ + 1, 'N' :: 'a' :: 'N' :: rest => Except.ok (Json.fnum "NaN", rest)
  | _ + 1, 'I' :: 'n' :: 'f' :: 'i' :: 'n' :: 'i' :: 't' :: 'y' :: rest =>
    Except.ok (Json.fnum "Infinity", rest)
  | _ + 1, '-' :: 'I' :: 'n' :: 'f' :: 'i' :: 'n' :: 'i' :: 't' :: 'y' :: rest =>
    Except.ok (Json.fnum "-Infinity", rest)
  | _ + 1, '"' :: rest =>
    match parseJString (rest.length + 1) rest [] with
    | Except.error e => Except.error e
    | Except.ok (s, r) => Except.ok (Json.str s, r)
  | fuel + 1, '[' :: rest =>
    match skipWs rest with
    | ']' :: r2 => Except.ok (Json.arr [], r2)
    | r2 => parseArrayItems fuel r2 []
  | fuel + 1, c :: rest =>
    if c = lbrace then
      match skipWs rest with
      | c2 :: r2 =>
        if c2 = rbrace then Except.ok (Json.obj [], r2)
        else parseObjectItems fuel (c2 :: r2) []
      | [] => Except.error "Expecting property name enclosed in double quotes"
    else parseNumber (c :: rest)
termination_by structural fuel _ => fuel

/-- Element loop of an array (after the opening bracket when the array
is not empty): parse a value, then a comma and the next element or the
closing bracket. -/
def parseArrayItems : Nat → List Char → List Json →
    Except String (Json × List Char)
  | 0, _, _ => Except.error "Recursion limit exceeded"
  | fuel + 1, cs, acc =>
    match parseValue fuel (skipWs cs) with
    | Except.error e => Except.error e
    | Except.ok (v, r) =>
      match skipWs r with
      | ',' :: rest => parseArrayItems fuel rest (acc ++ [v])
      | ']' :: rest => Except.ok (Json.arr (acc ++ [v]), rest)
      | _ => Except.error "Expecting comma delimiter"
termination_by structural fuel _ _ => fuel

/-- Member loop of an object (after the opening brace when the object is
not empty): parse a quoted key, a colon, a value, then a comma and the
next member or the closing brace. -/
def parseObjectItems : Nat → List Char → List (String × Json) →
    Except String (Json × List Char)
  | 0, _, _ => Except.error "Recursion limit exceeded"
  | fuel + 1, cs, acc =>
    match cs with
    | '"' :: rest =>
      match parseJString (rest.length + 1) rest [] with
      | Except.error e => Except.error e
      | Except.ok (k, r) =>
        match skipWs r with
        | ':' :: r2 =>
          match parseValue fuel (skipWs r2) with
          | Except.error e => Except.error e
          | Except.ok (v, r3) =>
            match skipWs r3 with
            | ',' :: r4 => parseObjectItems fuel (skipWs r4) (acc ++ [(k, v)])
            | c :: r4 =>
              if c = rbrace then Except.ok (Json.obj (acc ++ [(k, v)]), r4)
              else Except.error "Expecting comma delimiter"
            | [] => Except.error "Expecting comma delimiter"
        | _ => Except.error "Expecting colon delimiter"
    | _ => Except.error "Expecting property name enclosed in double quotes"
termination_by structural fuel _ _ => fuel

end

/-- Embedding of Python `json.loads`: skip leading whitespace, parse one
value, and require only whitespace to remain (Extra data otherwise).
The fuel `s.length + 1` dominates the recursion depth, which consumes at
least one input character per level. -/
def json_loads (s : String) : Except String Json :=
  match parseValue (s.length + 1) (skipWs s.data) with
  | Except.error e => Except.error e
  | Except.ok (v, rest) =>
    if (skipWs rest).isEmpty then Except.ok v else Except.error "Extra data"

/-- Embedding of `from_json` (`ferris/utils.py` lines 74-77): `if not
json_str: return None` then `return json.loads(json_str)` — the empty
string is the only falsy string, and the parsed `null` is Python
`None`, i.e. `Json.null`. -/
def from_json (json_str : String) : Except String Json :=
  if json_str = "" then Except.ok Json.null
  else json_loads json_str

/-- C4: `from_json` returns the null value for the empty string — the
only falsy string — without raising; on every non-empty input it
delegates to the JSON parser unchanged, so a malformed input surfaces
the parse failure unrecovered and well-formed JSON text yields the
parsed value.  In particular decoding the text `null` gives the null
value, decoding the one-member object text with key a and value 1 gives
that mapping, and a lone opening brace propagates the parse failure. -/
theorem from_json_spec :
    from_json "" = Except.ok Json.null ∧
      (∀ s : String, s ≠ "" → from_json s = json_loads s) ∧
      from_json "null" = Except.ok Json.null ∧
      from_json "\x7b\"a\":1\x7d" = Except.ok (Json.obj [("a", Json.num 1)]) ∧
      from_json "\x7b" =
        Except.error "Expecting property name enclosed in double quotes" := by
  refine ⟨rfl, ?_, rfl, rfl, rfl⟩
  intro s hs
  simp [from_json, hs]

/-- Witness for C4 at the non-empty input `null`. -/
theorem from_json_spec_witness : from_json "null" = json_loads "null" :=
  from_json_spec.2.1 "null" (by decide)
